import Mathlib

/-!
Verification of the deflection engine in `compute_deflections.py`.

The four formula functions `y1`, `y2`, `theta1`, `theta2` and the sweep
`compute_deflections` are embedded over exact rational arithmetic, translated
expression by expression from the Python source.
-/

namespace CompDefl

/-- Deflection equation y1(x) for 0 <= x < T (source line 14). -/
def y1 (x E1 I L w : ℚ) : ℚ :=
  (-w / (24 * E1 * I)) * (L - x)^4 - (w * L^3) / (6 * E1 * I) * x
    + (w * L^4) / (24 * E1 * I)

/-- Deflection equation y2(x) for T <= x <= L (source lines 20-26). -/
def y2 (x E1 E2 I L T w : ℚ) : ℚ :=
  let term1 := (-w) / (24 * E2 * I) * (L - x)^4
  let coefficient := (-w) / (6 * I) * ((L^3 - (L - T)^3) / E1 + (L - T)^3 / E2)
  let term2 := coefficient * x
  let term3 := (w / (24 * E1 * I)) * (L^4 - (L - T)^4 - 4 * L^3 * T)
  let term4 := (w / (24 * E2 * I)) * (L - T)^4
  let term5 := -coefficient * T
  term1 + term2 + term3 + term4 + term5

/-- Angular deflection theta1(x) for 0 <= x < T (source line 32). -/
def theta1 (x E1 I L w : ℚ) : ℚ :=
  (w / (6 * E1 * I)) * (L - x)^3 - (w * L^3) / (6 * E1 * I)

/-- Angular deflection theta2(x) for T <= x <= L (source lines 38-40). -/
def theta2 (x E1 E2 I L T w : ℚ) : ℚ :=
  let term1 := (w / (6 * E2 * I)) * (L - x)^3
  let coefficient := (-w) / (6 * I) * ((L^3 - (L - T)^3) / E1 + (L - T)^3 / E2)
  term1 + coefficient

/-- C1: at x = T the segment-2 formulas agree exactly with the segment-1
formulas, so the piecewise dispatch (x < T uses segment 1, x >= T uses
segment 2) is continuous in deflection and slope across the transition
point. -/
theorem continuity_at_T (E1 E2 I L T w : ℚ)
    (hE1 : 0 < E1) (hE2 : 0 < E2) (hI : 0 < I) (hL : 0 < L)
    (hT0 : 0 < T) (hTL : T < L) :
    y2 T E1 E2 I L T w = y1 T E1 I L w ∧
    theta2 T E1 E2 I L T w = theta1 T E1 I L w := by
  have hE1 : E1 ≠ 0 := ne_of_gt hE1
  have hE2 : E2 ≠ 0 := ne_of_gt hE2
  have hI : I ≠ 0 := ne_of_gt hI
  constructor
  · unfold y2 y1
    field_simp
    ring
  · unfold theta2 theta1
    field_simp
    ring

/-- Witness for C1 at the spec's concrete scenario shape (rescaled to
rationals): E1 = 2, E2 = 7, I = 3, L = 4, T = 3/2, w = 1000. -/
theorem continuity_at_T_witness :
    y2 (3/2) 2 7 3 4 (3/2) 1000 = y1 (3/2) 2 3 4 1000 ∧
    theta2 (3/2) 2 7 3 4 (3/2) 1000 = theta1 (3/2) 2 3 4 1000 :=
  continuity_at_T 2 7 3 4 (3/2) 1000 (by norm_num) (by norm_num) (by norm_num)
    (by norm_num) (by norm_num) (by norm_num)

/-- C3: single-material degeneracy. When E1 = E2 = E the two-segment
formulas coincide with the one-segment formulas at every sample point of
segment 2. -/
theorem single_material_degeneracy (E I L T w x : ℚ)
    (hE : 0 < E) (hI : 0 < I) (hL : 0 < L)
    (hT0 : 0 < T) (hTL : T < L) (hTx : T ≤ x) (hxL : x ≤ L) :
    y2 x E E I L T w = y1 x E I L w ∧
    theta2 x E E I L T w = theta1 x E I L w := by
  have hE : E ≠ 0 := ne_of_gt hE
  have hI : I ≠ 0 := ne_of_gt hI
  constructor
  · unfold y2 y1
    field_simp
    ring
  · unfold theta2 theta1
    field_simp
    ring

/-- Witness for C3 at E = 5, I = 2, L = 4, T = 1, w = -3, x = 2. -/
theorem single_material_degeneracy_witness :
    y2 2 5 5 2 4 1 (-3) = y1 2 5 2 4 (-3) ∧
    theta2 2 5 5 2 4 1 (-3) = theta1 2 5 2 4 (-3) :=
  single_material_degeneracy 5 2 4 1 (-3) 2 (by norm_num) (by norm_num)
    (by norm_num) (by norm_num) (by norm_num) (by norm_num) (by norm_num)

/-- C9: the segment-1 deflection vanishes at the left end of the beam. -/
theorem y1_at_zero (E1 I L w : ℚ) (hE1 : 0 < E1) (hI : 0 < I) (hL : 0 < L) :
    y1 0 E1 I L w = 0 := by
  unfold y1
  ring

/-- Witness for C9 at E1 = 3, I = 2, L = 5, w = 7. -/
theorem y1_at_zero_witness : y1 0 3 2 5 7 = 0 :=
  y1_at_zero 3 2 5 7 (by norm_num) (by norm_num) (by norm_num)

/-- C10: the segment-1 slope also vanishes at x = 0 (a clamped left end,
not the rotating support of a simply supported beam). -/
theorem theta1_at_zero (E1 I L w : ℚ) (hE1 : 0 < E1) (hI : 0 < I) (hL : 0 < L) :
    theta1 0 E1 I L w = 0 := by
  unfold theta1
  ring

/-- Witness for C10 at E1 = 3, I = 2, L = 5, w = 7. -/
theorem theta1_at_zero_witness : theta1 0 3 2 5 7 = 0 :=
  theta1_at_zero 3 2 5 7 (by norm_num) (by norm_num) (by norm_num)

/-! ### The sweep engine -/

/-- The fixed sample step 0.0025 m (source line 65). -/
def sampleStep : ℚ := 25 / 10000

/-- Number of elements produced by `np.arange(start, stop, st)` for a
positive step: `max 0 ⌈(stop - start) / st⌉`. -/
def arangeLen (start stop st : ℚ) : ℕ := (⌈(stop - start) / st⌉).toNat

/-- `np.arange(start, stop, st)`: the values `start + i * st` for
`i = 0, …, arangeLen - 1`. -/
def arange (start stop st : ℚ) : List ℚ :=
  (List.range (arangeLen start stop st)).map (fun i : ℕ => start + (i : ℚ) * st)

/-- The x samples for a beam of length L: `np.arange(0, L + step, step)`
(source line 104). -/
def xValues (L : ℚ) : List ℚ :=
  arange 0 (L + sampleStep) sampleStep

/-- Round a rational to the nearest integer, ties to even — the tie rule of
Python's built-in `round`. -/
def roundHalfEven (q : ℚ) : ℤ :=
  let f := ⌊q⌋
  if q - f < 1/2 then f
  else if q - f > 1/2 then f + 1
  else if f % 2 = 0 then f else f + 1

/-- Python's `round(q, n)`: round to n decimal places, ties to even. -/
def pyRound (q : ℚ) (n : ℕ) : ℚ :=
  (roundHalfEven (q * 10 ^ n) : ℚ) / 10 ^ n

/-- The factor `np.degrees` multiplies by: the exact rational value of the
IEEE-754 double nearest to 180 / π. -/
def degPerRad : ℚ := 1007958012753983 / 17592186044416

/-- Radians-to-degrees conversion as performed by `np.degrees`. -/
def degrees (t : ℚ) : ℚ := t * degPerRad

/-- A beam from the external library: name, length L and second moment of
area I (the value of its `moment_of_inertia()` method). -/
structure Beam where
  name : String
  length : ℚ
  moment_of_inertia : ℚ
deriving DecidableEq

/-- A material from the external library: name and elastic modulus E. -/
structure Material where
  name : String
  E : ℚ
deriving DecidableEq

/-- A load from the external library: name and distributed magnitude w. -/
structure Load where
  name : String
  w : ℚ
deriving DecidableEq

/-- The beam library: the three ordered collections, in their providers'
stable iteration order. -/
structure BeamLibrary where
  materials : List Material
  beams : List Beam
  loads : List Load
deriving DecidableEq

/-- Which empty collection made `compute_deflections` exit early. -/
inductive EmptyReport where
  | noBeams
  | noLoads
  | noMaterials
deriving DecidableEq

/-- One CSV data row (source lines 116-117): names, then
`round(x, 4)`, unrounded `y`, `round(np.degrees(theta), 6)`. -/
structure Row where
  beam : String
  load : String
  material1 : String
  material2 : String
  x : ℚ
  y : ℚ
  theta : ℚ
deriving DecidableEq

/-- The row written for one (beam, load, material1, material2, x)
combination (source lines 106-117): piecewise dispatch on x < T, degrees
conversion, rounding of x and theta only. -/
def mkRow (b : Beam) (ld : Load) (m1 m2 : Material) (T x : ℚ) : Row :=
  let E1 := m1.E
  let E2 := m2.E
  let I := b.moment_of_inertia
  let L := b.length
  let w := ld.w
  let y := if x < T then y1 x E1 I L w else y2 x E1 E2 I L T w
  let th := if x < T then theta1 x E1 I L w else theta2 x E1 E2 I L T w
  ⟨b.name, ld.name, m1.name, m2.name, pyRound x 4, y, pyRound (degrees th) 6⟩

/-- The outcome of `compute_deflections`: the early-exit report (if any),
the CSV header, the data rows, and the returned transition-point
dictionary as an association list. The Python function raises no
exception on any input; correspondingly this is a total function. -/
structure SweepResult where
  report : Option EmptyReport
  header : List String
  rows : List Row
  transition_points : List (String × ℚ)
deriving DecidableEq

/-- `compute_deflections` (source lines 42-120). The interactive
transition-point acquisition is abstracted as the function `tp` (its
validation loop guarantees `0 < tp b < b.length` for every beam it is
asked about). Empty collections are checked in source order: beams,
loads, materials. -/
def compute_deflections (lib : BeamLibrary) (tp : Beam → ℚ) : SweepResult :=
  if lib.beams = [] then ⟨some .noBeams, [], [], []⟩
  else if lib.loads = [] then ⟨some .noLoads, [], [], []⟩
  else if lib.materials = [] then ⟨some .noMaterials, [], [], []⟩
  else
    { report := none
      header := ["Beam", "Load", "Material1", "Material2", "x (m)",
                 "y(x) (m)", "theta(x) (degrees)"]
      rows := lib.beams.flatMap (fun b =>
        lib.loads.flatMap (fun ld =>
          lib.materials.flatMap (fun m1 =>
            lib.materials.flatMap (fun m2 =>
              (xValues b.length).map (fun x => mkRow b ld m1 m2 (tp b) x)))))
      transition_points := lib.beams.map (fun b => (b.name, tp b)) }

/-! ### C2: endpoint inclusion of the x samples -/

/-- The sample list for L = 1/1000 evaluates to [0, 1/400]. -/
theorem xValues_milli : xValues (1/1000) = [0, 1/400] := by
  have hlen : arangeLen 0 ((1 : ℚ)/1000 + sampleStep) sampleStep = 2 := by
    unfold arangeLen sampleStep
    have h1 : ((1 : ℚ)/1000 + 25/10000 - 0) / (25/10000) = 7/5 := by norm_num
    rw [h1]
    have h2 : ⌈(7/5 : ℚ)⌉ = 2 := Int.ceil_eq_iff.mpr (by norm_num)
    rw [h2]
    rfl
  unfold xValues arange
  rw [hlen]
  simp [List.range_succ, sampleStep]
  norm_num

/-- C2 counterexample: for L = 1/1000 (0.001 m, not a multiple of the
0.0025 m step), the sample list is [0, 0.0025]: it does not contain L,
and its last sample exceeds L. -/
theorem xValues_endpoint_cex :
    ¬ (((1 : ℚ)/1000) ∈ xValues (1/1000) ∧
       ∀ x ∈ xValues ((1 : ℚ)/1000), 0 ≤ x ∧ x ≤ 1/1000) := by
  rintro ⟨-, hall⟩
  have h4 : ((1 : ℚ)/400) ∈ xValues (1/1000) := by
    rw [xValues_milli]
    simp
  have := (hall _ h4).2
  norm_num at this

/-- C2 amended: when L is a positive integer multiple of the 0.0025 m step,
the sample list `np.arange(0, L + step, step)` does contain L exactly and
every sample lies in [0, L]. (For other L the final sample overshoots L
and L itself is absent, as the counterexample shows.) -/
theorem xValues_endpoint (L : ℚ) (n : ℕ) (hn : 0 < n)
    (hL : L = n * sampleStep) :
    L ∈ xValues L ∧ ∀ x ∈ xValues L, 0 ≤ x ∧ x ≤ L := by
  have hs : (0 : ℚ) < sampleStep := by norm_num [sampleStep]
  have hlen : arangeLen 0 ((n : ℚ) * sampleStep + sampleStep) sampleStep
      = n + 1 := by
    unfold arangeLen
    have h1 : ((n : ℚ) * sampleStep + sampleStep - 0) / sampleStep
        = ((n + 1 : ℕ) : ℚ) := by
      push_cast
      field_simp
      ring
    rw [h1, Int.ceil_natCast, Int.toNat_natCast]
  have hxv : xValues L =
      (List.range (n + 1)).map (fun i : ℕ => 0 + (i : ℚ) * sampleStep) := by
    unfold xValues arange
    rw [hL, hlen]
  constructor
  · rw [hxv, List.mem_map]
    exact ⟨n, List.mem_range.mpr (Nat.lt_succ_self n), by rw [hL]; ring⟩
  · intro x hx
    rw [hxv, List.mem_map] at hx
    obtain ⟨i, hi, rfl⟩ := hx
    have hin : i ≤ n := Nat.lt_succ_iff.mp (List.mem_range.mp hi)
    refine ⟨by positivity, ?_⟩
    rw [hL, zero_add]
    exact mul_le_mul_of_nonneg_right (by exact_mod_cast hin) hs.le

/-- Witness for the amended C2 at n = 2, L = 0.005. -/
theorem xValues_endpoint_witness :
    ((1 : ℚ)/200) ∈ xValues (1/200) ∧
    ∀ x ∈ xValues ((1 : ℚ)/200), 0 ≤ x ∧ x ≤ 1/200 :=
  xValues_endpoint (1/200) 2 (by norm_num) (by norm_num [sampleStep])

/-! ### C6: empty-collection handling -/

/-- C6: when any of the three collections is empty, the sweep emits zero
rows, returns an empty transition-point mapping, and reports an empty
collection that is indeed empty. `compute_deflections` is a total
function, so no exception is raised. -/
theorem empty_collections (lib : BeamLibrary) (tp : Beam → ℚ)
    (h : lib.beams = [] ∨ lib.loads = [] ∨ lib.materials = []) :
    (compute_deflections lib tp).rows = [] ∧
    (compute_deflections lib tp).transition_points = [] ∧
    ∃ rep : EmptyReport, (compute_deflections lib tp).report = some rep ∧
      ((rep = .noBeams ∧ lib.beams = []) ∨
       (rep = .noLoads ∧ lib.loads = []) ∨
       (rep = .noMaterials ∧ lib.materials = [])) := by
  by_cases hb : lib.beams = []
  · refine ⟨?_, ?_, .noBeams, ?_, Or.inl ⟨rfl, hb⟩⟩ <;>
      simp [compute_deflections, hb]
  · by_cases hl : lib.loads = []
    · refine ⟨?_, ?_, .noLoads, ?_, Or.inr (Or.inl ⟨rfl, hl⟩)⟩ <;>
        simp [compute_deflections, hb, hl]
    · have hm : lib.materials = [] := by tauto
      refine ⟨?_, ?_, .noMaterials, ?_, Or.inr (Or.inr ⟨rfl, hm⟩)⟩ <;>
        simp [compute_deflections, hb, hl, hm]

/-- Witness for C6: the all-empty library. -/
theorem empty_collections_witness :
    (compute_deflections ⟨[], [], []⟩ (fun _ => 1)).rows = [] ∧
    (compute_deflections ⟨[], [], []⟩ (fun _ => 1)).transition_points = [] ∧
    ∃ rep : EmptyReport,
      (compute_deflections ⟨[], [], []⟩ (fun _ => 1)).report = some rep ∧
      ((rep = .noBeams ∧ ([] : List Beam) = []) ∨
       (rep = .noLoads ∧ ([] : List Load) = []) ∨
       (rep = .noMaterials ∧ ([] : List Material) = [])) :=
  empty_collections ⟨[], [], []⟩ (fun _ => 1) (Or.inl rfl)

/-! ### C4: sweep cardinality -/

/-- The number of x samples for a beam of length L is ⌈L / step + 1⌉. -/
theorem length_xValues (L : ℚ) :
    (xValues L).length = (⌈L / sampleStep + 1⌉).toNat := by
  unfold xValues arange arangeLen
  rw [List.length_map, List.length_range]
  have h1 : (L + sampleStep - 0) / sampleStep = L / sampleStep + 1 := by
    rw [sub_zero, add_div, div_self (by norm_num [sampleStep] : sampleStep ≠ 0)]
  rw [h1]

theorem sum_map_const {α : Type} (l : List α) (c : ℕ) :
    (l.map (fun _ => c)).sum = l.length * c := by
  induction l with
  | nil => simp
  | cons a t ih => simp [ih, Nat.succ_mul, Nat.add_comm]

/-- C4: the sweep emits exactly Σ_beams W · M² · ⌈L_b / s + 1⌉ data rows
(the header is not a data row), each beam contributing according to its
own length. -/
theorem sweep_cardinality (lib : BeamLibrary) (tp : Beam → ℚ) :
    (compute_deflections lib tp).rows.length =
      (lib.beams.map (fun b =>
        lib.loads.length * lib.materials.length ^ 2 *
          (⌈b.length / sampleStep + 1⌉).toNat)).sum := by
  by_cases hb : lib.beams = []
  · simp [compute_deflections, hb]
  · by_cases hl : lib.loads = []
    · simp [compute_deflections, hb, hl]
    · by_cases hm : lib.materials = []
      · simp [compute_deflections, hb, hl, hm]
      · unfold compute_deflections
        simp only [if_neg hb, if_neg hl, if_neg hm]
        simp only [List.length_flatMap, List.map_map, Function.comp_def,
          List.length_map, length_xValues, sum_map_const]
        exact congrArg List.sum (List.map_congr_left (fun b _ => by ring))

/-! ### C5: ordering of the emitted records -/

/-- The record stream as the spec words it: beam-major, then load, then
the ordered Cartesian square of the material collection (material1-major,
material2-minor, self-pairs included), then the x samples in generation
order. -/
def spec_ordered_rows (lib : BeamLibrary) (tp : Beam → ℚ) : List Row :=
  lib.beams.flatMap (fun b =>
    lib.loads.flatMap (fun ld =>
      (lib.materials.product lib.materials).flatMap (fun p =>
        (xValues b.length).map (fun x => mkRow b ld p.1 p.2 (tp b) x))))

theorem flatMap_product {α β γ : Type} (l1 : List α) (l2 : List β)
    (f : α × β → List γ) :
    (l1.product l2).flatMap f
      = l1.flatMap (fun a => l2.flatMap (fun b => f (a, b))) := by
  unfold List.product
  rw [List.flatMap_assoc]
  congr 1
  funext a
  rw [List.flatMap_map]

/-- C5: the emitted rows are exactly the spec's ordering — beam-major,
then load, then the ordered Cartesian square of materials (material1-major,
material2-minor), then ascending x (the x samples are strictly
increasing). -/
theorem sweep_ordering (lib : BeamLibrary) (tp : Beam → ℚ) :
    (compute_deflections lib tp).rows = spec_ordered_rows lib tp ∧
    ∀ b ∈ lib.beams, (xValues b.length).Pairwise (· < ·) := by
  constructor
  · unfold compute_deflections spec_ordered_rows
    by_cases hb : lib.beams = []
    · simp [hb]
    · by_cases hl : lib.loads = []
      · simp [hb, hl]
      · by_cases hm : lib.materials = []
        · simp [hb, hl, hm]
        · simp only [if_neg hb, if_neg hl, if_neg hm]
          simp only [flatMap_product]
  · intro b _
    unfold xValues arange
    refine List.Pairwise.map _ ?_ (List.pairwise_lt_range _)
    intro i j hij
    have hs : (0 : ℚ) < sampleStep := by norm_num [sampleStep]
    have : (i : ℚ) < (j : ℚ) := by exact_mod_cast hij
    nlinarith

/-- A one-beam, one-material, one-load library used to exercise the sweep
on concrete data. -/
def beamS : Beam := ⟨"B1", 1/400, 1⟩

def matS : Material := ⟨"M1", 2⟩

def loadS : Load := ⟨"W1", 3⟩

def libS : BeamLibrary := ⟨[matS], [beamS], [loadS]⟩

def tpS : Beam → ℚ := fun _ => 1/800

/-- The sample list for L = 1/400 evaluates to [0, 1/400]. -/
theorem xValues_quarter : xValues (1/400) = [0, 1/400] := by
  have hlen : arangeLen 0 ((1 : ℚ)/400 + sampleStep) sampleStep = 2 := by
    unfold arangeLen sampleStep
    have h1 : ((1 : ℚ)/400 + 25/10000 - 0) / (25/10000) = 2 := by norm_num
    rw [h1]
    have h2 : ⌈(2 : ℚ)⌉ = 2 := Int.ceil_eq_iff.mpr (by norm_num)
    rw [h2]
    rfl
  unfold xValues arange
  rw [hlen]
  simp [List.range_succ, sampleStep]
  norm_num

/-- Witness for C5 on the concrete library. -/
theorem sweep_ordering_witness :
    (compute_deflections libS tpS).rows = spec_ordered_rows libS tpS ∧
    ∀ b ∈ libS.beams, (xValues b.length).Pairwise (· < ·) :=
  sweep_ordering libS tpS

/-! ### C7: output formatting of the emitted rows -/

/-- C7: every emitted row carries x rounded to 4 decimal places, the
deflection y at full precision (no rounding), and the internally computed
slope converted to degrees and rounded to 6 decimal places. -/
theorem row_fields (lib : BeamLibrary) (tp : Beam → ℚ) (r : Row)
    (hr : r ∈ (compute_deflections lib tp).rows) :
    ∃ b ∈ lib.beams, ∃ ld ∈ lib.loads,
      ∃ m1 ∈ lib.materials, ∃ m2 ∈ lib.materials, ∃ x ∈ xValues b.length,
        r.x = pyRound x 4 ∧
        r.y = (if x < tp b
               then y1 x m1.E b.moment_of_inertia b.length ld.w
               else y2 x m1.E m2.E b.moment_of_inertia b.length (tp b) ld.w) ∧
        r.theta = pyRound (degrees (if x < tp b
               then theta1 x m1.E b.moment_of_inertia b.length ld.w
               else theta2 x m1.E m2.E b.moment_of_inertia b.length (tp b)
                 ld.w)) 6 := by
  by_cases hb : lib.beams = []
  · simp [compute_deflections, hb] at hr
  · by_cases hl : lib.loads = []
    · simp [compute_deflections, hb, hl] at hr
    · by_cases hm : lib.materials = []
      · simp [compute_deflections, hb, hl, hm] at hr
      · unfold compute_deflections at hr
        simp only [if_neg hb, if_neg hl, if_neg hm, List.mem_flatMap,
          List.mem_map] at hr
        obtain ⟨b, hbm, ld, hld, m1, hm1, m2, hm2, x, hx, rfl⟩ := hr
        exact ⟨b, hbm, ld, hld, m1, hm1, m2, hm2, x, hx, rfl, rfl, rfl⟩

/-- Witness for C7: the first row of the concrete one-combination sweep. -/
theorem row_fields_witness :
    ∃ b ∈ libS.beams, ∃ ld ∈ libS.loads,
      ∃ m1 ∈ libS.materials, ∃ m2 ∈ libS.materials, ∃ x ∈ xValues b.length,
        (mkRow beamS loadS matS matS (1/800) 0).x = pyRound x 4 ∧
        (mkRow beamS loadS matS matS (1/800) 0).y = (if x < tpS b
               then y1 x m1.E b.moment_of_inertia b.length ld.w
               else y2 x m1.E m2.E b.moment_of_inertia b.length (tpS b)
                 ld.w) ∧
        (mkRow beamS loadS matS matS (1/800) 0).theta
          = pyRound (degrees (if x < tpS b
               then theta1 x m1.E b.moment_of_inertia b.length ld.w
               else theta2 x m1.E m2.E b.moment_of_inertia b.length (tpS b)
                 ld.w)) 6 :=
  row_fields libS tpS (mkRow beamS loadS matS matS (1/800) 0) (by
    have hx : xValues beamS.length = [0, 1/400] := xValues_quarter
    simp [compute_deflections, libS, tpS, hx])

/-! ### C8: no division by zero in the formula evaluations -/

/-- Division with an explicit zero-divisor check. -/
def div? (a b : ℚ) : Option ℚ := if b = 0 then none else some (a / b)

/-- `y1` with every division of the source expression checked. -/
def y1checked (x E1 I L w : ℚ) : Option ℚ := do
  let a ← div? (-w) (24 * E1 * I)
  let b ← div? (w * L^3) (6 * E1 * I)
  let c ← div? (w * L^4) (24 * E1 * I)
  pure (a * (L - x)^4 - b * x + c)

/-- `y2` with every division of the source expression checked. -/
def y2checked (x E1 E2 I L T w : ℚ) : Option ℚ := do
  let t1 ← div? (-w) (24 * E2 * I)
  let ca ← div? (L^3 - (L - T)^3) E1
  let cb ← div? ((L - T)^3) E2
  let c0 ← div? (-w) (6 * I)
  let coefficient := c0 * (ca + cb)
  let t3 ← div? w (24 * E1 * I)
  let t4 ← div? w (24 * E2 * I)
  pure (t1 * (L - x)^4 + coefficient * x
    + t3 * (L^4 - (L - T)^4 - 4 * L^3 * T)
    + t4 * (L - T)^4 + (-coefficient) * T)

/-- `theta1` with every division of the source expression checked. -/
def theta1checked (x E1 I L w : ℚ) : Option ℚ := do
  let a ← div? w (6 * E1 * I)
  let b ← div? (w * L^3) (6 * E1 * I)
  pure (a * (L - x)^3 - b)

/-- `theta2` with every division of the source expression checked. -/
def theta2checked (x E1 E2 I L T w : ℚ) : Option ℚ := do
  let a ← div? w (6 * E2 * I)
  let ca ← div? (L^3 - (L - T)^3) E1
  let cb ← div? ((L - T)^3) E2
  let c0 ← div? (-w) (6 * I)
  pure (a * (L - x)^3 + c0 * (ca + cb))

/-- C8: under the input invariants E1, E2, I > 0 every divisor of the four
formulas (24·E1·I, 6·E1·I, 6·I, 24·E2·I, 6·E2·I, E1, E2) is nonzero: the
division-checked evaluations all succeed and return the unchecked
values, for every x, L, T and w. -/
theorem no_division_by_zero (x E1 E2 I L T w : ℚ)
    (hE1 : 0 < E1) (hE2 : 0 < E2) (hI : 0 < I) :
    y1checked x E1 I L w = some (y1 x E1 I L w) ∧
    y2checked x E1 E2 I L T w = some (y2 x E1 E2 I L T w) ∧
    theta1checked x E1 I L w = some (theta1 x E1 I L w) ∧
    theta2checked x E1 E2 I L T w = some (theta2 x E1 E2 I L T w) := by
  have h1 : (24 * E1 * I) ≠ 0 := by positivity
  have h2 : (6 * E1 * I) ≠ 0 := by positivity
  have h3 : (6 * I) ≠ 0 := by positivity
  have h4 : (24 * E2 * I) ≠ 0 := by positivity
  have h5 : (6 * E2 * I) ≠ 0 := by positivity
  have h6 : E1 ≠ 0 := ne_of_gt hE1
  have h7 : E2 ≠ 0 := ne_of_gt hE2
  refine ⟨?_, ?_, ?_, ?_⟩ <;>
    simp [y1checked, y2checked, theta1checked, theta2checked, div?,
      y1, y2, theta1, theta2, h1, h2, h3, h4, h5, h6, h7]

/-- Witness for C8 at x = 1, E1 = 2, E2 = 3, I = 5, L = 7, T = 2, w = 11. -/
theorem no_division_by_zero_witness :
    y1checked 1 2 5 7 11 = some (y1 1 2 5 7 11) ∧
    y2checked 1 2 3 5 7 2 11 = some (y2 1 2 3 5 7 2 11) ∧
    theta1checked 1 2 5 7 11 = some (theta1 1 2 5 7 11) ∧
    theta2checked 1 2 3 5 7 2 11 = some (theta2 1 2 3 5 7 2 11) :=
  no_division_by_zero 1 2 3 5 7 2 11 (by norm_num) (by norm_num) (by norm_num)

end CompDefl
